import Mathlib

/-!
Shallow embedding of `write2dyna` (cgx_2.23/src/write2dyna.c), the LS-DYNA
mesh exporter, together with theorems settling the specification claims.

The exporter walks a node array and an element array and prints fixed-width
text records to an output file. We model the file sink as a list of
structured lines (`Line`), each field tagged with its printf width/precision,
and stdout as a list of structured messages (`Msg`). Coordinates (C floats,
only ever copied, never computed on) are modelled as rationals. `fopen` is
modelled as an oracle `String → Bool` saying whether a path can be opened.
-/

namespace Write2Dyna

/-- A formatted output field: `int w v` renders `v` with printf width `w`
(`%8d`), `flt w p v` renders `v` fixed-point with width `w` and precision `p`
(`%16.3f`). -/
inductive Field where
  | int : Nat → Int → Field
  | flt : Nat → Nat → Rat → Field
deriving DecidableEq

/-- One line written to the sink: a literal section-header line or a record
line made of fixed-width fields. -/
inductive Line where
  | header : String → Line
  | record : List Field → Line
deriving DecidableEq

/-- One stdout message of `write2dyna`: the open-failure message, the
"file opened" message, the "write ls-dyna data" banner, or the
"elem not a known type (%d)" diagnostic carrying the offending type code. -/
inductive Msg where
  | openFail : Msg
  | opened : Msg
  | writeInfo : Msg
  | unknownType : Int → Msg
deriving DecidableEq

/-- A `Nodes` entry: node number `nr` and coordinates `nx, ny, nz`. -/
structure NodeRec where
  nr : Nat
  nx : Rat
  ny : Rat
  nz : Rat
deriving DecidableEq

/-- An `Elements` entry: element number `nr`, group, topology type code,
and the node-slot array `nod`. -/
structure Elem where
  nr : Int
  group : Int
  type : Int
  nod : Nat → Int

/-- The `Summen` counts used by the exporter: `n` nodes, `e` elements. -/
structure Summen where
  n : Nat
  e : Nat

/-- Shorthand for a `%8d` field. -/
def i8 (v : Int) : Field := Field.int 8 v

/-- Shorthand for a `%16.3f` field. -/
def f163 (v : Rat) : Field := Field.flt 16 3 v

/-- One node record, mirroring
`fprintf(handle1, "%8d%16.3f%16.3f%16.3f\n", node[i].nr, node[node[i].nr].nx, node[node[i].nr].ny, node[node[i].nr].nz)`:
the identifier is `node[i].nr` and the coordinates are read at array index
`node[i].nr` (identifier used as index), not at index `i`. -/
def nodeLine (node : Nat → NodeRec) (i : Nat) : Line :=
  Line.record [i8 ((node i).nr : Int),
    f163 (node ((node i).nr)).nx,
    f163 (node ((node i).nr)).ny,
    f163 (node ((node i).nr)).nz]

/-- The `*NODE` section: emitted only when `anz->n > 0`, as the header line
followed by one record per node in array order `i = 0 .. n-1`. -/
def nodeSection (n : Nat) (node : Nat → NodeRec) : List Line :=
  if 0 < n then Line.header "*NODE" :: (List.range n).map (nodeLine node)
  else []

/-- Output of the per-element if/else chain: the sink lines and the stdout
messages contributed by one element.  Types 1 and 3 produce a single record;
type 4 produces a two-field header line plus two ten-field lines (the second
permuted as slots 10,11,16,17,18,19,12,13,14,15); type 6 produces a
two-field header line plus one ten-field line (slots 0..6,8,9,7); any other
type produces no lines and one "not a known type" diagnostic. -/
def elemOut (e : Elem) : List Line × List Msg :=
  if e.type = 1 then
    ([Line.record [i8 e.nr, i8 e.group,
        i8 (e.nod 0), i8 (e.nod 1), i8 (e.nod 2), i8 (e.nod 3),
        i8 (e.nod 4), i8 (e.nod 5), i8 (e.nod 6), i8 (e.nod 7)]], [])
  else if e.type = 3 then
    ([Line.record [i8 e.nr, i8 e.group,
        i8 (e.nod 0), i8 (e.nod 1), i8 (e.nod 2), i8 (e.nod 3)]], [])
  else if e.type = 4 then
    ([Line.record [i8 e.nr, i8 e.group],
      Line.record [i8 (e.nod 0), i8 (e.nod 1), i8 (e.nod 2), i8 (e.nod 3),
        i8 (e.nod 4), i8 (e.nod 5), i8 (e.nod 6), i8 (e.nod 7),
        i8 (e.nod 8), i8 (e.nod 9)],
      Line.record [i8 (e.nod 10), i8 (e.nod 11), i8 (e.nod 16), i8 (e.nod 17),
        i8 (e.nod 18), i8 (e.nod 19), i8 (e.nod 12), i8 (e.nod 13),
        i8 (e.nod 14), i8 (e.nod 15)]], [])
  else if e.type = 6 then
    ([Line.record [i8 e.nr, i8 e.group],
      Line.record [i8 (e.nod 0), i8 (e.nod 1), i8 (e.nod 2), i8 (e.nod 3),
        i8 (e.nod 4), i8 (e.nod 5), i8 (e.nod 6), i8 (e.nod 8),
        i8 (e.nod 9), i8 (e.nod 7)]], [])
  else
    ([], [Msg.unknownType e.type])

/-- The `*ELEMENT_SOLID` section: emitted only when `anz->e > 0`, as the
header line followed by each element's lines in array order; the second
component collects the per-element diagnostics in order. -/
def elemSection (ne : Nat) (elem : Nat → Elem) : List Line × List Msg :=
  if 0 < ne then
    (Line.header "*ELEMENT_SOLID" ::
       ((List.range ne).map (fun i => (elemOut (elem i)).1)).flatten,
     ((List.range ne).map (fun i => (elemOut (elem i)).2)).flatten)
  else ([], [])

/-- The output filename: `sprintf(datout, "%s.dyn", datout)` appends the
fixed suffix to the path stem. -/
def outName (datout : String) : String := datout ++ ".dyn"

/-- Shallow embedding of `write2dyna`.  Returns the status, the sink
contents and the stdout messages.  If the output file cannot be opened the
function prints the failure message and returns -1 having written nothing;
otherwise it prints the opened/banner messages, writes the node section then
the element section, and returns 1.  The datasets argument `lcase` is
accepted but, exactly as in the C body, never read. -/
def write2dyna {α : Type} (datout : String) (fopenW : String → Bool)
    (anz : Summen) (node : Nat → NodeRec) (elem : Nat → Elem) (lcase : α) :
    Int × List Line × List Msg :=
  if fopenW (outName datout) then
    (1, nodeSection anz.n node ++ (elemSection anz.e elem).1,
     Msg.opened :: Msg.writeInfo :: (elemSection anz.e elem).2)
  else
    (-1, [], [Msg.openFail])

/-- The type codes handled by the if/else chain. -/
def knownType (t : Int) : Bool := t == 1 || t == 3 || t == 4 || t == 6

/-- Recognizer for the "elem not a known type" diagnostic. -/
def isUnknownMsg : Msg → Bool
  | Msg.unknownType _ => true
  | _ => false

/-- Concrete 20-node element whose slot array holds the sequential values
0..19 (identifier 1, group 2). -/
def c1_elem : Elem := ⟨1, 2, 4, fun j => (j : Int)⟩

/-- Concrete 15-node element whose slot array holds the sequential values
0..9 in its first ten slots (identifier 1, group 2). -/
def c2_elem : Elem := ⟨1, 2, 6, fun j => (j : Int)⟩

/-- Concrete 8-node element with sequential slots (identifier 3, group 4). -/
def c8_hex : Elem := ⟨3, 4, 1, fun j => (j : Int)⟩

/-- Concrete 4-node element with sequential slots (identifier 5, group 6). -/
def c8_tet : Elem := ⟨5, 6, 3, fun j => (j : Int)⟩

/-- Trivial mesh data used by witnesses that need some mesh. -/
def node0 : Nat → NodeRec := fun _ => ⟨0, 0, 0, 0⟩

/-- Trivial element data used by witnesses that need some mesh. -/
def elem0 : Nat → Elem := fun _ => ⟨0, 0, 1, fun _ => 0⟩

/-- Node table whose storage order differs from the identifier space: the
entry at array position 0 has identifier 5 and the entry at position 1 has
identifier 3, while the coordinate-bearing entries live at indices 5 and 3
(the identifier-as-index convention the code relies on). -/
def c3_node : Nat → NodeRec := fun k =>
  if k = 0 then ⟨5, 1, 2, 3⟩
  else if k = 1 then ⟨3, 4, 5, 6⟩
  else if k = 3 then ⟨3, 7, 8, 9⟩
  else if k = 5 then ⟨5, 10, 11, 12⟩
  else ⟨0, 0, 0, 0⟩

/-- Element array with an unknown type code in the middle: index 0 is a
type-1 element, index 1 has the unsupported type code 99, index 2 is a
type-3 element. -/
def c5_elem : Nat → Elem := fun k =>
  if k = 0 then ⟨1, 7, 1, fun _ => 11⟩
  else if k = 1 then ⟨2, 7, 99, fun _ => 22⟩
  else ⟨3, 7, 3, fun _ => 33⟩

/-- Node table holding a single node with identifier 1 (stored per the
identifier-as-index convention). -/
def c6_node : Nat → NodeRec := fun k =>
  if k = 0 then ⟨1, 2, 3, 4⟩ else if k = 1 then ⟨1, 2, 3, 4⟩ else ⟨0, 0, 0, 0⟩

/-- A type-3 element every one of whose node slots references identifier 99,
which is absent from `c6_node`'s identifiers. -/
def c6_elem : Nat → Elem := fun _ => ⟨7, 8, 3, fun _ => 99⟩

/-- A mesh as the round-trip claim needs it: the node table and the ordered
element list (identifiers, groups, types and node orderings included). -/
structure Mesh where
  nodes : List NodeRec
  elems : List Elem

/-- A mesh built only from supported topologies (type codes 1, 3, 4, 6). -/
def supportedMesh (m : Mesh) : Prop := ∀ e ∈ m.elems, knownType e.type = true

/-- Placeholder node used to view a mesh's node list as an array. -/
def defaultNode : NodeRec := ⟨0, 0, 0, 0⟩

/-- Placeholder element used to view a mesh's element list as an array. -/
def defaultElem : Elem := ⟨0, 0, 1, fun _ => 0⟩

/-- The encoder of the round-trip claim: the sink bytes `write2dyna`
produces for a mesh (with a successful open). -/
def encodeMesh (m : Mesh) : List Line :=
  (write2dyna "out" (fun _ => true) ⟨m.nodes.length, m.elems.length⟩
    (fun i => m.nodes.getD i defaultNode) (fun i => m.elems.getD i defaultElem)
    (0 : Nat)).2.1

/-- A supported mesh holding a type-6 element followed by a type-1 element,
all identifiers, groups and node slots zero. -/
def c9_m1 : Mesh :=
  ⟨[], [⟨0, 0, 6, fun _ => 0⟩, ⟨0, 0, 1, fun _ => 0⟩]⟩

/-- A supported mesh holding a single type-4 element, all identifiers,
groups and node slots zero. -/
def c9_m2 : Mesh := ⟨[], [⟨0, 0, 4, fun _ => 0⟩]⟩

/-- The per-element stdout contribution: empty for the four known type
codes, exactly one "not a known type" diagnostic otherwise. -/
theorem elemOut_msgs (e : Elem) :
    (elemOut e).2 = if knownType e.type then [] else [Msg.unknownType e.type] := by
  unfold elemOut knownType
  split_ifs with h1 h2 h3 h4 <;> simp_all

/-- No line contributed by an element is a section-header line. -/
theorem elemOut_no_header (e : Elem) :
    ∀ l ∈ (elemOut e).1, ∀ s, l ≠ Line.header s := by
  intro l hl s
  unfold elemOut at hl
  split_ifs at hl <;> simp at hl <;>
    first
      | (subst hl; nofun)
      | (rcases hl with rfl | rfl | rfl <;> nofun)

/-- Every line contributed by an element is a record of width-8 integer
fields: element records carry node identifiers, never coordinate fields. -/
theorem elemOut_int_fields (e : Elem) :
    ∀ l ∈ (elemOut e).1,
      ∃ fs, l = Line.record fs ∧ ∀ f ∈ fs, ∃ v : Int, f = Field.int 8 v := by
  intro l hl
  unfold elemOut at hl
  split_ifs at hl <;> simp at hl <;>
    first
      | (subst hl; exact ⟨_, rfl, by intro f hf; fin_cases hf <;> exact ⟨_, rfl⟩⟩)
      | (rcases hl with rfl | rfl | rfl <;>
          exact ⟨_, rfl, by intro f hf; fin_cases hf <;> exact ⟨_, rfl⟩⟩)

/-- Splitting the concatenation of per-index chunks at one index. -/
theorem flatten_split {β : Type} (L : Nat → List β) :
    ∀ (l : List Nat) (j : Nat), j ∈ l →
      ∃ pre post, (l.map L).flatten = pre ++ L j ++ post := by
  intro l
  induction l with
  | nil => intro j hj; cases hj
  | cons a t ih =>
      intro j hj
      rcases List.mem_cons.mp hj with rfl | hj
      · exact ⟨[], (t.map L).flatten, by simp⟩
      · obtain ⟨pre, post, hp⟩ := ih j hj
        exact ⟨L a ++ pre, post, by simp [hp]⟩

/-- The number of "not a known type" diagnostics produced over a list of
element indices equals the number of unknown-type elements among them. -/
theorem countP_unknown_msgs (elem : Nat → Elem) :
    ∀ l : List Nat,
      ((l.map (fun j => (elemOut (elem j)).2)).flatten.countP isUnknownMsg) =
        l.countP (fun j => !knownType (elem j).type) := by
  intro l
  induction l with
  | nil => simp
  | cons a t ih =>
      simp only [List.map_cons, List.flatten_cons, List.countP_append,
        List.countP_cons, ih, elemOut_msgs (elem a)]
      by_cases hk : knownType (elem a).type <;>
        simp [hk, isUnknownMsg, Nat.add_comm]

/-- Header-line count of the node section: one "*NODE" when the node count
is positive, no other header line ever. -/
theorem nodeSection_count (n : Nat) (node : Nat → NodeRec) (s : String) :
    (nodeSection n node).count (Line.header s) =
      if 0 < n ∧ s = "*NODE" then 1 else 0 := by
  have hz : ((List.range n).map (nodeLine node)).count (Line.header s) = 0 := by
    rw [List.count_eq_zero]
    intro hmem
    obtain ⟨i, -, hi⟩ := List.mem_map.mp hmem
    simp [nodeLine] at hi
  by_cases hn : 0 < n
  · by_cases hs : s = "*NODE"
    · subst hs; simp [nodeSection, hn, List.count_cons, hz]
    · simp [nodeSection, hn, hs, List.count_cons, hz]
  · simp [nodeSection, hn]

/-- Header-line count of the element section: one "*ELEMENT_SOLID" when the
element count is positive, no other header line ever. -/
theorem elemSection_count (ne : Nat) (elem : Nat → Elem) (s : String) :
    ((elemSection ne elem).1).count (Line.header s) =
      if 0 < ne ∧ s = "*ELEMENT_SOLID" then 1 else 0 := by
  have hz : (((List.range ne).map (fun i => (elemOut (elem i)).1)).flatten).count
      (Line.header s) = 0 := by
    rw [List.count_eq_zero]
    intro hmem
    obtain ⟨chunk, hchunk, hin⟩ := List.mem_flatten.mp hmem
    obtain ⟨i, -, hi⟩ := List.mem_map.mp hchunk
    exact elemOut_no_header (elem i) _ (hi ▸ hin) s rfl
  by_cases hn : 0 < ne
  · by_cases hs : s = "*ELEMENT_SOLID"
    · subst hs; simp [elemSection, hn, List.count_cons, hz]
    · simp [elemSection, hn, hs, List.count_cons, hz]
  · simp [elemSection, hn]

/-- C3: with at least one node and a node table storing the node with
identifier `id` at array index `id`, the node section is the header followed
by exactly one record per node in array order; record `i` leads with
`node[i].nr` and its three `%16.3f` coordinate fields are the coordinates of
a table entry whose identifier equals that leading identifier (the entry
found by indexing the identifier, not position `i`). -/
theorem c3_node_records (n : Nat) (node : Nat → NodeRec) (hn : 0 < n)
    (hwf : ∀ i, i < n → (node ((node i).nr)).nr = (node i).nr) :
    (nodeSection n node).length = n + 1 ∧
    (nodeSection n node).head? = some (Line.header "*NODE") ∧
    ∀ i, i < n → ∃ m : NodeRec,
      m = node ((node i).nr) ∧ m.nr = (node i).nr ∧
      (nodeSection n node)[i + 1]? =
        some (Line.record [i8 ((node i).nr : Int), f163 m.nx, f163 m.ny,
          f163 m.nz]) := by
  refine ⟨by simp [nodeSection, hn], by simp [nodeSection, hn], ?_⟩
  intro i hi
  refine ⟨node ((node i).nr), rfl, hwf i hi, ?_⟩
  simp [nodeSection, hn, nodeLine, List.getElem?_map, List.getElem?_range, hi]

/-- C3 witness: a two-node table whose storage order (identifiers 5 then 3
at positions 0 and 1) differs from the identifier space; each record picks
the coordinates stored under its identifier, not those at its position. -/
theorem c3_witness :
    0 < 2 ∧
    (∀ i, i < 2 → (c3_node ((c3_node i).nr)).nr = (c3_node i).nr) ∧
    ((nodeSection 2 c3_node).length = 2 + 1 ∧
     (nodeSection 2 c3_node).head? = some (Line.header "*NODE") ∧
     ∀ i, i < 2 → ∃ m : NodeRec,
       m = c3_node ((c3_node i).nr) ∧ m.nr = (c3_node i).nr ∧
       (nodeSection 2 c3_node)[i + 1]? =
         some (Line.record [i8 ((c3_node i).nr : Int), f163 m.nx, f163 m.ny,
           f163 m.nz])) :=
  ⟨by decide, by decide, c3_node_records 2 c3_node (by decide) (by decide)⟩

/-- C4: with a successful open, "*NODE" appears exactly once when the node
count is positive and never otherwise, "*ELEMENT_SOLID" appears exactly once
when the element count is positive and never otherwise, and when both
sections are present the "*NODE" line comes first. -/
theorem c4_sections {α : Type} (datout : String) (fopenW : String → Bool)
    (anz : Summen) (node : Nat → NodeRec) (elem : Nat → Elem) (lcase : α)
    (hopen : fopenW (outName datout) = true) :
    ((write2dyna datout fopenW anz node elem lcase).2.1).count
        (Line.header "*NODE") = (if 0 < anz.n then 1 else 0) ∧
    ((write2dyna datout fopenW anz node elem lcase).2.1).count
        (Line.header "*ELEMENT_SOLID") = (if 0 < anz.e then 1 else 0) ∧
    (0 < anz.n → 0 < anz.e →
      ((write2dyna datout fopenW anz node elem lcase).2.1).indexOf
          (Line.header "*NODE") <
        ((write2dyna datout fopenW anz node elem lcase).2.1).indexOf
          (Line.header "*ELEMENT_SOLID")) := by
  have hsink : (write2dyna datout fopenW anz node elem lcase).2.1 =
      nodeSection anz.n node ++ (elemSection anz.e elem).1 := by
    simp [write2dyna, hopen]
  refine ⟨?_, ?_, ?_⟩
  · rw [hsink, List.count_append, nodeSection_count, elemSection_count]
    by_cases hn : 0 < anz.n <;> simp [hn]
  · rw [hsink, List.count_append, nodeSection_count, elemSection_count]
    by_cases he : 0 < anz.e <;> simp [he]
  · intro hn he
    have hns : nodeSection anz.n node =
        Line.header "*NODE" :: (List.range anz.n).map (nodeLine node) := by
      simp [nodeSection, hn]
    rw [hsink, hns, List.cons_append, List.indexOf_cons_self,
      List.indexOf_cons_ne _ (by simp)]
    exact Nat.succ_pos _

/-- C4 witness: a one-node, one-element mesh shows both headers exactly once
with "*NODE" first. -/
theorem c4_witness :
    (fun _ : String => true) ("mesh" ++ ".dyn") = true ∧
    (((write2dyna "mesh" (fun _ => true) ⟨1, 1⟩ node0 elem0 (0 : Nat)).2.1).count
        (Line.header "*NODE") = (if 0 < (1 : Nat) then 1 else 0) ∧
     ((write2dyna "mesh" (fun _ => true) ⟨1, 1⟩ node0 elem0 (0 : Nat)).2.1).count
        (Line.header "*ELEMENT_SOLID") = (if 0 < (1 : Nat) then 1 else 0) ∧
     (0 < (1 : Nat) → 0 < (1 : Nat) →
       ((write2dyna "mesh" (fun _ => true) ⟨1, 1⟩ node0 elem0 (0 : Nat)).2.1).indexOf
           (Line.header "*NODE") <
         ((write2dyna "mesh" (fun _ => true) ⟨1, 1⟩ node0 elem0 (0 : Nat)).2.1).indexOf
           (Line.header "*ELEMENT_SOLID"))) :=
  ⟨rfl, c4_sections "mesh" (fun _ => true) ⟨1, 1⟩ node0 elem0 (0 : Nat) rfl⟩

/-- C1: a type-4 (20-node hexahedron) element contributes exactly a header
line with its identifier and group, one ten-field line of slots 0..9 in
order, and one ten-field line ordered 10,11,16,17,18,19,12,13,14,15; all
fields width-8 integers, and no diagnostic. -/
theorem c1_type4_record (e : Elem) (h : e.type = 4) :
    elemOut e =
      ([Line.record [i8 e.nr, i8 e.group],
        Line.record [i8 (e.nod 0), i8 (e.nod 1), i8 (e.nod 2), i8 (e.nod 3),
          i8 (e.nod 4), i8 (e.nod 5), i8 (e.nod 6), i8 (e.nod 7),
          i8 (e.nod 8), i8 (e.nod 9)],
        Line.record [i8 (e.nod 10), i8 (e.nod 11), i8 (e.nod 16), i8 (e.nod 17),
          i8 (e.nod 18), i8 (e.nod 19), i8 (e.nod 12), i8 (e.nod 13),
          i8 (e.nod 14), i8 (e.nod 15)]], []) := by
  simp [elemOut, h]

/-- C1 witness: the type-4 element with slot array 0..19 yields the header
line and the two ten-field lines, the second ordered exactly
10,11,16,17,18,19,12,13,14,15. -/
theorem c1_witness :
    c1_elem.type = 4 ∧
    elemOut c1_elem =
      ([Line.record [i8 1, i8 2],
        Line.record [i8 0, i8 1, i8 2, i8 3, i8 4, i8 5, i8 6, i8 7, i8 8, i8 9],
        Line.record [i8 10, i8 11, i8 16, i8 17, i8 18, i8 19, i8 12, i8 13,
          i8 14, i8 15]], []) :=
  ⟨rfl, (c1_type4_record c1_elem rfl).trans (by decide)⟩

/-- C2: a type-6 (15-node pentahedron) element contributes exactly a header
line with its identifier and group and one ten-field line ordered
slots 0,1,2,3,4,5,6,8,9,7; no diagnostic. -/
theorem c2_type6_record (e : Elem) (h : e.type = 6) :
    elemOut e =
      ([Line.record [i8 e.nr, i8 e.group],
        Line.record [i8 (e.nod 0), i8 (e.nod 1), i8 (e.nod 2), i8 (e.nod 3),
          i8 (e.nod 4), i8 (e.nod 5), i8 (e.nod 6), i8 (e.nod 8),
          i8 (e.nod 9), i8 (e.nod 7)]], []) := by
  simp [elemOut, h]

/-- C2 witness: the type-6 element with slot array 0..9 in its first ten
slots yields the ten-field line ordered exactly 0,1,2,3,4,5,6,8,9,7. -/
theorem c2_witness :
    c2_elem.type = 6 ∧
    elemOut c2_elem =
      ([Line.record [i8 1, i8 2],
        Line.record [i8 0, i8 1, i8 2, i8 3, i8 4, i8 5, i8 6, i8 8, i8 9,
          i8 7]], []) :=
  ⟨rfl, (c2_type6_record c2_elem rfl).trans (by decide)⟩

/-- C8: a type-1 (8-node hexahedron) element contributes exactly one line of
ten width-8 integer fields, identifier, group, then slots 0..7 in order; a
type-3 (4-node tetrahedron) element contributes exactly one line of six
width-8 integer fields, identifier, group, then slots 0..3 in order; neither
produces a diagnostic. -/
theorem c8_type1_type3_records (e : Elem) :
    (e.type = 1 →
      elemOut e =
        ([Line.record [i8 e.nr, i8 e.group,
            i8 (e.nod 0), i8 (e.nod 1), i8 (e.nod 2), i8 (e.nod 3),
            i8 (e.nod 4), i8 (e.nod 5), i8 (e.nod 6), i8 (e.nod 7)]], [])) ∧
    (e.type = 3 →
      elemOut e =
        ([Line.record [i8 e.nr, i8 e.group,
            i8 (e.nod 0), i8 (e.nod 1), i8 (e.nod 2), i8 (e.nod 3)]], [])) := by
  constructor <;> intro h <;> simp [elemOut, h]

/-- C8 witness: concrete type-1 and type-3 elements with sequential slot
arrays yield the single ten-field and six-field lines. -/
theorem c8_witness :
    (c8_hex.type = 1 ∧
      elemOut c8_hex =
        ([Line.record [i8 3, i8 4, i8 0, i8 1, i8 2, i8 3, i8 4, i8 5, i8 6,
            i8 7]], [])) ∧
    (c8_tet.type = 3 ∧
      elemOut c8_tet =
        ([Line.record [i8 5, i8 6, i8 0, i8 1, i8 2, i8 3]], [])) :=
  ⟨⟨rfl, ((c8_type1_type3_records c8_hex).1 rfl).trans (by decide)⟩,
   ⟨rfl, ((c8_type1_type3_records c8_tet).2 rfl).trans (by decide)⟩⟩

/-- C7: if the output file (the stem with ".dyn" appended) cannot be opened,
`write2dyna` prints the failure message and returns -1 with nothing written
to the sink; if the open succeeds, it returns 1 and the sink holds the node
section followed by the element section. -/
theorem c7_open_status {α : Type} (datout : String) (fopenW : String → Bool)
    (anz : Summen) (node : Nat → NodeRec) (elem : Nat → Elem) (lcase : α) :
    (fopenW (datout ++ ".dyn") = false →
      write2dyna datout fopenW anz node elem lcase = (-1, [], [Msg.openFail])) ∧
    (fopenW (datout ++ ".dyn") = true →
      (write2dyna datout fopenW anz node elem lcase).1 = 1 ∧
      (write2dyna datout fopenW anz node elem lcase).2.1 =
        nodeSection anz.n node ++ (elemSection anz.e elem).1) := by
  constructor <;> intro h <;> simp [write2dyna, outName, h]

/-- C7 witness: with an always-failing open the call returns -1 and an empty
sink; with an always-succeeding open it returns 1 and writes both sections. -/
theorem c7_witness :
    ((fun _ : String => false) ("mesh" ++ ".dyn") = false ∧
      write2dyna "mesh" (fun _ => false) ⟨1, 1⟩ node0 elem0 (0 : Nat) =
        (-1, [], [Msg.openFail])) ∧
    ((fun _ : String => true) ("mesh" ++ ".dyn") = true ∧
      (write2dyna "mesh" (fun _ => true) ⟨1, 1⟩ node0 elem0 (0 : Nat)).1 = 1 ∧
      (write2dyna "mesh" (fun _ => true) ⟨1, 1⟩ node0 elem0 (0 : Nat)).2.1 =
        nodeSection 1 node0 ++ (elemSection 1 elem0).1) :=
  ⟨⟨rfl, (c7_open_status "mesh" (fun _ => false) ⟨1, 1⟩ node0 elem0 (0 : Nat)).1 rfl⟩,
   ⟨rfl, (c7_open_status "mesh" (fun _ => true) ⟨1, 1⟩ node0 elem0 (0 : Nat)).2 rfl⟩⟩

/-- C5: an element whose type code is not in {1,3,4,6} contributes no line
to the sink and exactly one "not a known type" diagnostic; the export still
returns 1, every element's lines (in particular every other element's
record) still appear contiguously in the sink, and the number of skip
diagnostics equals the number of unknown-type elements — one per skipped
element. -/
theorem c5_unknown_skipped {α : Type} (datout : String) (fopenW : String → Bool)
    (anz : Summen) (node : Nat → NodeRec) (elem : Nat → Elem) (lcase : α)
    (i : Nat) (hi : i < anz.e) (ht : knownType (elem i).type = false)
    (hopen : fopenW (outName datout) = true) :
    elemOut (elem i) = ([], [Msg.unknownType (elem i).type]) ∧
    (write2dyna datout fopenW anz node elem lcase).1 = 1 ∧
    (∀ j, j < anz.e → ∃ pre post,
      (write2dyna datout fopenW anz node elem lcase).2.1 =
        pre ++ (elemOut (elem j)).1 ++ post) ∧
    ((write2dyna datout fopenW anz node elem lcase).2.2).countP isUnknownMsg =
      (List.range anz.e).countP (fun j => !knownType (elem j).type) := by
  have he : 0 < anz.e := Nat.lt_of_le_of_lt (Nat.zero_le i) hi
  have ht' : (elem i).type ≠ 1 ∧ (elem i).type ≠ 3 ∧ (elem i).type ≠ 4 ∧
      (elem i).type ≠ 6 := by
    simp [knownType] at ht
    exact ⟨ht.1.1.1, ht.1.1.2, ht.1.2, ht.2⟩
  refine ⟨?_, ?_, ?_, ?_⟩
  · simp [elemOut, ht'.1, ht'.2.1, ht'.2.2.1, ht'.2.2.2]
  · simp [write2dyna, hopen]
  · intro j hj
    obtain ⟨pre, post, hp⟩ := flatten_split (fun k => (elemOut (elem k)).1)
      (List.range anz.e) j (List.mem_range.mpr hj)
    refine ⟨nodeSection anz.n node ++ Line.header "*ELEMENT_SOLID" :: pre,
      post, ?_⟩
    simp [write2dyna, hopen, elemSection, he, hp]
  · have hmsg : (write2dyna datout fopenW anz node elem lcase).2.2 =
        Msg.opened :: Msg.writeInfo ::
          ((List.range anz.e).map (fun j => (elemOut (elem j)).2)).flatten := by
      simp [write2dyna, hopen, elemSection, he]
    rw [hmsg, List.countP_cons, List.countP_cons,
      countP_unknown_msgs elem (List.range anz.e)]
    simp [isUnknownMsg]

/-- C5 witness: in a three-element mesh whose middle element carries the
unsupported type code 99, that element leaves no record and one diagnostic,
the other two elements still export, and the skip count is one. -/
theorem c5_witness :
    1 < 3 ∧ knownType (c5_elem 1).type = false ∧
    ((fun _ : String => true) ("mesh" ++ ".dyn") = true) ∧
    (elemOut (c5_elem 1) = ([], [Msg.unknownType (c5_elem 1).type]) ∧
     (write2dyna "mesh" (fun _ => true) ⟨0, 3⟩ node0 c5_elem (0 : Nat)).1 = 1 ∧
     (∀ j, j < 3 → ∃ pre post,
       (write2dyna "mesh" (fun _ => true) ⟨0, 3⟩ node0 c5_elem (0 : Nat)).2.1 =
         pre ++ (elemOut (c5_elem j)).1 ++ post) ∧
     ((write2dyna "mesh" (fun _ => true) ⟨0, 3⟩ node0 c5_elem (0 : Nat)).2.2).countP
         isUnknownMsg =
       (List.range 3).countP (fun j => !knownType (c5_elem j).type)) :=
  ⟨by decide, by decide, rfl,
   c5_unknown_skipped "mesh" (fun _ => true) ⟨0, 3⟩ node0 c5_elem (0 : Nat) 1
     (by decide) (by decide) rfl⟩

/-- C6 counterexample: a mesh whose single type-3 element references node
identifier 99, absent from the one-node table, is nevertheless written in
full (its record appears in the sink with 99 emitted verbatim) and stdout
carries no error of any kind — the encoder yields no NodeNotFound error and
does not withhold the record. -/
theorem c6_counterexample :
    (∀ k, k < 1 → ((c6_node k).nr : Int) ≠ 99) ∧
    (∀ j, j < 4 → (c6_elem 0).nod j = 99) ∧
    (write2dyna "mesh" (fun _ => true) ⟨1, 1⟩ c6_node c6_elem (0 : Nat)).2.1 =
      [Line.header "*NODE",
       Line.record [i8 1, f163 2, f163 3, f163 4],
       Line.header "*ELEMENT_SOLID",
       Line.record [i8 7, i8 8, i8 99, i8 99, i8 99, i8 99]] ∧
    (write2dyna "mesh" (fun _ => true) ⟨1, 1⟩ c6_node c6_elem (0 : Nat)).2.2 =
      [Msg.opened, Msg.writeInfo] :=
  ⟨by decide, by decide, by rfl, by rfl⟩

/-- C6 amended: the encoder performs no node-existence check for element
records: an element of supported type referencing a node identifier absent
from the node table is still written, its lines appear contiguously in the
sink, every field of those lines is a width-8 integer (node identifiers
emitted verbatim — element records carry no coordinate data at all), and
stdout never carries anything besides the opened/banner messages and
unknown-type diagnostics, so no NodeNotFound report exists. -/
theorem c6_dangling_written {α : Type} (datout : String)
    (fopenW : String → Bool) (anz : Summen) (node : Nat → NodeRec)
    (elem : Nat → Elem) (lcase : α) (i : Nat) (idref : Int)
    (hi : i < anz.e) (hopen : fopenW (outName datout) = true)
    (hknown : knownType (elem i).type = true)
    (href : ∃ j, (elem i).nod j = idref)
    (habs : ∀ k, k < anz.n → ((node k).nr : Int) ≠ idref) :
    (elemOut (elem i)).1 ≠ [] ∧
    (∃ pre post, (write2dyna datout fopenW anz node elem lcase).2.1 =
      pre ++ (elemOut (elem i)).1 ++ post) ∧
    (∀ l ∈ (elemOut (elem i)).1,
      ∃ fs, l = Line.record fs ∧ ∀ f ∈ fs, ∃ v : Int, f = Field.int 8 v) ∧
    (∀ m ∈ (write2dyna datout fopenW anz node elem lcase).2.2,
      m = Msg.opened ∨ m = Msg.writeInfo ∨ ∃ t, m = Msg.unknownType t) := by
  have he : 0 < anz.e := Nat.lt_of_le_of_lt (Nat.zero_le i) hi
  refine ⟨?_, ?_, elemOut_int_fields (elem i), ?_⟩
  · have hk := hknown
    simp [knownType] at hk
    rcases hk with ((h | h) | h) | h <;> simp [elemOut, h]
  · obtain ⟨pre, post, hp⟩ := flatten_split (fun k => (elemOut (elem k)).1)
      (List.range anz.e) i (List.mem_range.mpr hi)
    refine ⟨nodeSection anz.n node ++ Line.header "*ELEMENT_SOLID" :: pre,
      post, ?_⟩
    simp [write2dyna, hopen, elemSection, he, hp]
  · intro m hm
    have hmsg : (write2dyna datout fopenW anz node elem lcase).2.2 =
        Msg.opened :: Msg.writeInfo ::
          ((List.range anz.e).map (fun j => (elemOut (elem j)).2)).flatten := by
      simp [write2dyna, hopen, elemSection, he]
    rw [hmsg] at hm
    rcases List.mem_cons.mp hm with rfl | hm
    · exact Or.inl rfl
    rcases List.mem_cons.mp hm with rfl | hm
    · exact Or.inr (Or.inl rfl)
    obtain ⟨chunk, hchunk, hin⟩ := List.mem_flatten.mp hm
    obtain ⟨j, -, hj⟩ := List.mem_map.mp hchunk
    rw [← hj, elemOut_msgs (elem j)] at hin
    by_cases hkj : knownType (elem j).type
    · simp [hkj] at hin
    · simp [hkj] at hin
      exact Or.inr (Or.inr ⟨(elem j).type, hin⟩)

/-- C6 amended witness: the concrete dangling-reference mesh of the
counterexample satisfies all hypotheses and the amended conclusions. -/
theorem c6_witness :
    0 < 1 ∧ ((fun _ : String => true) ("mesh" ++ ".dyn") = true) ∧
    knownType (c6_elem 0).type = true ∧
    (∃ j, (c6_elem 0).nod j = (99 : Int)) ∧
    (∀ k, k < 1 → ((c6_node k).nr : Int) ≠ 99) ∧
    ((elemOut (c6_elem 0)).1 ≠ [] ∧
     (∃ pre post,
       (write2dyna "mesh" (fun _ => true) ⟨1, 1⟩ c6_node c6_elem (0 : Nat)).2.1 =
         pre ++ (elemOut (c6_elem 0)).1 ++ post) ∧
     (∀ l ∈ (elemOut (c6_elem 0)).1,
       ∃ fs, l = Line.record fs ∧ ∀ f ∈ fs, ∃ v : Int, f = Field.int 8 v) ∧
     (∀ m ∈ (write2dyna "mesh" (fun _ => true) ⟨1, 1⟩ c6_node c6_elem
         (0 : Nat)).2.2,
       m = Msg.opened ∨ m = Msg.writeInfo ∨ ∃ t, m = Msg.unknownType t)) :=
  ⟨by decide, rfl, by decide, ⟨0, rfl⟩, by decide,
   c6_dangling_written "mesh" (fun _ => true) ⟨1, 1⟩ c6_node c6_elem (0 : Nat)
     0 99 (by decide) rfl (by decide) ⟨0, rfl⟩ (by decide)⟩

/-- Both round-trip meshes use only supported topologies. -/
theorem c9_sup1 : supportedMesh c9_m1 := by
  intro e he
  simp [c9_m1] at he
  rcases he with rfl | rfl <;> rfl

/-- The single-element round-trip mesh uses only supported topologies. -/
theorem c9_sup2 : supportedMesh c9_m2 := by
  intro e he
  simp [c9_m2] at he
  subst he; rfl

/-- The distinct meshes `c9_m1` and `c9_m2` encode to the same sink bytes. -/
theorem c9_encode_eq : encodeMesh c9_m1 = encodeMesh c9_m2 := by rfl

/-- The two round-trip meshes differ (two elements versus one). -/
theorem c9_m1_ne_m2 : c9_m1 ≠ c9_m2 := by
  intro h
  have hlen := congrArg (fun m => m.elems.length) h
  simp [c9_m1, c9_m2] at hlen

/-- C9 counterexample: two distinct meshes built only from supported
topologies — a type-6 element followed by a type-1 element, versus a single
type-4 element — produce byte-identical encoder output, so no decoder maps
both encodings back to their meshes. -/
theorem c9_counterexample :
    supportedMesh c9_m1 ∧ supportedMesh c9_m2 ∧ c9_m1 ≠ c9_m2 ∧
    encodeMesh c9_m1 = encodeMesh c9_m2 ∧
    ¬ ∃ dec : List Line → Mesh,
        dec (encodeMesh c9_m1) = c9_m1 ∧ dec (encodeMesh c9_m2) = c9_m2 := by
  refine ⟨c9_sup1, c9_sup2, c9_m1_ne_m2, c9_encode_eq, ?_⟩
  rintro ⟨dec, h1, h2⟩
  apply c9_m1_ne_m2
  rw [← h1, ← h2, c9_encode_eq]

/-- C9 amended: the encoder is not injective on meshes of supported
topologies, so decode(encode(m)) = m cannot hold for all such meshes:
every decoder fails to reproduce some supported mesh. -/
theorem c9_no_exact_inverse (dec : List Line → Mesh) :
    ¬ ∀ m : Mesh, supportedMesh m → dec (encodeMesh m) = m := by
  intro h
  apply c9_m1_ne_m2
  rw [← h c9_m1 c9_sup1, ← h c9_m2 c9_sup2, c9_encode_eq]

/-- C10: the result-datasets argument `lcase` never influences the status,
the sink bytes or the stdout messages: two calls agreeing on everything else
return identical results whatever datasets (even of different types) are
passed. -/
theorem c10_lcase_irrelevant {α β : Type} (datout : String)
    (fopenW : String → Bool) (anz : Summen) (node : Nat → NodeRec)
    (elem : Nat → Elem) (l1 : α) (l2 : β) :
    write2dyna datout fopenW anz node elem l1 =
      write2dyna datout fopenW anz node elem l2 := rfl

end Write2Dyna
